import Mathlib

/-!
Verification of the Form D filings pipeline (`src/main.py`).

The pipeline is: one HTTP GET against the SEC full-text search endpoint
(`fetch_sec_filings`), normalization of the JSON hits into flat records
(`clean_up`), per-record enrichment from the filing's detail page
(`add_and_edit` with the extractors `extract_related_persons`,
`extract_phone_number`, `extract_offering_amounts`), removal of the raw
identifier fields and a final filter on non-empty related persons.

Embedding conventions:
* a Python dict of strings is an association list `Rec := List (String × String)`
  in insertion order (Python dicts preserve insertion order);
* fallible Python code (exceptions such as `KeyError`, `IndexError`,
  `AttributeError`, `ValueError`, `UnboundLocalError`) is embedded in
  `Except String`, the error string naming the exception raised;
* the two network effects (`requests.get` on the search endpoint and on each
  detail page) are passed in explicitly: the search transport is a list of
  attempt outcomes consumed one GET at a time, and the detail-page transport is
  a function from the requested URL to the parsed page;
* a parsed detail page is given through the two views the extractors use: the
  list of its `<table>` elements (for `extract_related_persons`) and the
  pre-order list of all its element nodes with parent pointers (for
  `extract_phone_number` and `extract_offering_amounts`).
-/

/-- Python `str.lstrip("0")` (line 63 / 70 / 129 of `main.py`): drop every
leading `'0'` character. -/
def lstripZeros (s : String) : String :=
  ⟨s.data.dropWhile (fun c => c == '0')⟩

/-- Python `str.replace('-', '')` (lines 61, 77, 130 of `main.py`): delete
every hyphen. -/
def removeHyphens (s : String) : String :=
  ⟨s.data.filter (fun c => c != '-')⟩

/-- ASCII whitespace, as stripped by Python `str.strip()`. -/
def pySpace (c : Char) : Bool :=
  c == ' ' || c == '\t' || c == '\n' || c == '\r'

/-- Python `str.strip()` / BeautifulSoup `get_text(strip=True)`: remove
leading and trailing whitespace. -/
def pyStrip (s : String) : String :=
  ⟨((s.data.dropWhile pySpace).reverse.dropWhile pySpace).reverse⟩

/-- A result record, embedding one of the Python dicts built in `clean_up`:
keys to string values, in insertion order. -/
abbrev Rec := List (String × String)

/-- Python `dict.get(key)`: value at the first matching key, if any. -/
def getOpt : Rec → String → Option String
  | [], _ => none
  | (k, v) :: rest, key => if k == key then some v else getOpt rest key

/-- Python `dict[key] = value`: replace the value at an existing key, else
append the new pair at the end (insertion order). -/
def setKey : Rec → String → String → Rec
  | [], key, v => [(key, v)]
  | (k, w) :: rest, key, v =>
    if k == key then (key, v) :: rest else (k, w) :: setKey rest key v

/-- Python `dict.pop(key, None)`: remove the entry at the key when present. -/
def popKey : Rec → String → Rec
  | [], _ => []
  | (k, w) :: rest, key => if k == key then rest else (k, w) :: popKey rest key

/-- Python `dict[key]` read access: `KeyError` when the key is absent. -/
def keyRead (r : Rec) (key : String) : Except String String :=
  match getOpt r key with
  | some v => .ok v
  | none => .error ("KeyError: " ++ key)

/-- The `_source` object of one search hit, with exactly the keys `clean_up`
reads; `none` embeds an absent key. -/
structure Source where
  ciks : Option (List String)
  adsh : Option String
  display_names : Option (List String)
  file_date : Option String
  biz_locations : Option (List String)

/-- The `_source` obtained from `item.get("_source", {})` when the key is
absent: every field missing. -/
def emptySource : Source := ⟨none, none, none, none, none⟩

/-- The search response body: `hits` embeds the outer `'hits'` key, its value
embeds the inner `'hits'` key, whose value is the list of hit items, each item
carrying its `_source` object (or `none` when `_source` is absent). -/
structure SecJson where
  hits : Option (Option (List (Option Source)))

/-- The `edgar_links` string of `clean_up` (lines 60-67 of `main.py`): when the
`ciks` key exists and `adsh` is present and non-empty, one HTML anchor per cik
joined by comma-space, else the literal fallback. -/
def edgarLinksOf (source : Source) : String :=
  match source.ciks, source.adsh with
  | some ciks, some adsh =>
    if adsh == "" then "No links available"
    else
      String.intercalate ", " (ciks.map (fun cik =>
        "<a href=\"https://www.sec.gov/Archives/edgar/data/" ++ lstripZeros cik
          ++ "/" ++ removeHyphens adsh
          ++ "/xslFormDX01/primary_doc.xml\" target=\"_blank\">Link</a>"))
  | _, _ => "No links available"

/-- The result dict built for one hit in the loop of `clean_up`
(lines 57-80 of `main.py`), in the source's key order. -/
def hitToRec (item : Option Source) : Rec :=
  let source := item.getD emptySource
  [("CIK", String.intercalate ", " ((source.ciks.getD []).map lstripZeros)),
   ("Company Name", String.intercalate ", " (source.display_names.getD [])),
   ("File Date", source.file_date.getD "Unknown"),
   ("Business Location(s)", String.intercalate ", " (source.biz_locations.getD [])),
   ("ADSH", removeHyphens (source.adsh.getD "N/A")),
   ("Edgar", edgarLinksOf source)]

/-- The `results` list as built by `clean_up` before enrichment (lines 54-80):
empty unless both nested `'hits'` keys exist. -/
def rawRecords (response : SecJson) : List Rec :=
  match response.hits with
  | some (some items) => items.map hitToRec
  | _ => []

example : lstripZeros "0001234567" = "1234567" := by decide
example : removeHyphens "0001234567-24-000001" = "000123456724000001" := by decide
example : pyStrip "  a b\n" = "a b" := by decide
example : getOpt (hitToRec (some ⟨some ["0123"], some "1-2", none, none, none⟩)) "ADSH" = some "12" := by rfl

/-- A cell of a related-persons table: its tag (`"th"` or `"td"`) and its text
content as seen by `get_text`. -/
structure RPCell where
  tag : String
  text : String

/-- A table row, holding the cells `row.find_all` traverses in document
order. -/
structure RPRow where
  cells : List RPCell

/-- One `<table>` element of the detail page: its `summary` attribute (empty
when absent, which never equals the filter value) and its `<tr>` rows in
document order. -/
structure RPTable where
  summary : String
  rows : List RPRow

/-- The name built for one row in `extract_related_persons` (line 151 of
`main.py`): the stripped texts of the row's `td` cells, in reverse column
order, joined by single spaces. -/
def rowNameOf (row : RPRow) : String :=
  String.intercalate " "
    (((row.cells.filter (fun c => c.tag == "td")).reverse).map (fun c => pyStrip c.text))

/-- Embedding of `extract_related_persons` (lines 143-154 of `main.py`):
over every table whose `summary` attribute is exactly `"Related Persons"`,
take the row slice `[1:3]` (skip the first row, keep at most the next two) and
for each sliced row with a non-empty `td` list append its reversed-column
name. -/
def extract_related_persons (tables : List RPTable) : List String :=
  ((tables.filter (fun t => t.summary == "Related Persons")).map (fun table =>
    ((table.rows.drop 1).take 2).filterMap (fun row =>
      if (row.cells.filter (fun c => c.tag == "td")).isEmpty then none
      else some (rowNameOf row)))).flatten

/-- One element node of the parsed detail page: tag name, attributes, the
index of the parent element (`none` for a child of the document root) and the
node's text content as seen by `get_text` / `.string`. -/
structure HNode where
  tag : String
  attrs : List (String × String)
  parent : Option Nat
  text : String

/-- A parsed document: its element nodes listed in pre-order (document order),
so a parent's index is always below its children's and `find_next` is a
forward scan. -/
abbrev Doc := List HNode

/-- A placeholder node returned for an out-of-range index; every index the
finders below produce is in range, so it is never observed. -/
def dummyNode : HNode := ⟨"", [], none, ""⟩

/-- The node at an index of the document. -/
def nodeAt (d : Doc) (i : Nat) : HNode := (d[i]?).getD dummyNode

/-- Index of the first list element satisfying the predicate: the position
`soup.find` / `list.index` style searches return. -/
def findFirstIdx {α : Type} (p : α → Bool) : List α → Option Nat
  | [] => none
  | a :: rest => if p a then some 0 else (findFirstIdx p rest).map (fun k => k + 1)

/-- BeautifulSoup `tag.find_next` restricted to element matches: the first
node strictly after `i` in document order satisfying the predicate. -/
def findNextIdx (d : Doc) (i : Nat) (p : HNode → Bool) : Option Nat :=
  (findFirstIdx p (d.drop (i + 1))).map (fun k => i + 1 + k)

/-- BeautifulSoup `tag.find_next_sibling`: the first following node with the
same parent satisfying the predicate (in pre-order every later node with the
same parent is a following sibling). -/
def findNextSiblingIdx (d : Doc) (i : Nat) (p : HNode → Bool) : Option Nat :=
  findNextIdx d i (fun n => p n && n.parent == (nodeAt d i).parent)

/-- The ancestor indices of a node, by walking parent pointers; the fuel `i`
suffices because in pre-order a parent's index is strictly smaller. -/
def ancestorsAux (d : Doc) : Nat → Nat → List Nat
  | 0, _ => []
  | fuel + 1, i =>
    match (nodeAt d i).parent with
    | none => []
    | some p => p :: ancestorsAux d fuel p

/-- Ancestor indices of node `i`, nearest first. -/
def ancestors (d : Doc) (i : Nat) : List Nat := ancestorsAux d i i

/-- BeautifulSoup `find_all` on a scope: all matching node indices in document
order, the scope being either the whole document (`none`, i.e. the soup
object) or the strict descendants of one node. -/
def scopeAll (d : Doc) (scope : Option Nat) (p : HNode → Bool) : List Nat :=
  (List.range d.length).filter (fun j =>
    p (nodeAt d j) &&
      match scope with
      | none => true
      | some i => (ancestors d j).contains i)

/-- The stripped text of the node at an index (`get_text(strip=True)` /
`.text.strip()`). -/
def stripAt (d : Doc) (i : Nat) : String := pyStrip (nodeAt d i).text

/-- The header cell `soup.find('th', string='Phone Number of Issuer')`
matches: tag and exact text. -/
def isPhoneTh (n : HNode) : Bool :=
  n.tag == "th" && n.text == "Phone Number of Issuer"

/-- A `td` whose string is exactly the given label, as matched by
`soup.find('td', string=...)`. -/
def isTdWith (s : String) (n : HNode) : Bool :=
  n.tag == "td" && n.text == s

/-- A node with the given tag, as matched by `find_next('td')` etc. -/
def isTag (t : String) (n : HNode) : Bool := n.tag == t

/-- The marker matched by `find_next('span', class_="FormData")`: a `span`
carrying `FormData` in its `class` attribute. -/
def isFormDataSpan (n : HNode) : Bool :=
  n.tag == "span" && n.attrs.any (fun kv => kv.1 == "class" && kv.2 == "FormData")

/-- BeautifulSoup tag equality (used by `list.index(section)`): tags compare
by rendered content, embedded here as equal tag, attributes and text. -/
def sameMarkup (a b : HNode) : Bool :=
  a.tag == b.tag && a.attrs == b.attrs && a.text == b.text

/-- Embedding of `extract_phone_number` (lines 156-172 of `main.py`).
`section.parent.parent` is the grandparent element of the found `th`; when the
`th` is a child of the document root its grandparent is `None` and
`row.find_all` raises `AttributeError`; when the parent is a child of the root
the grandparent is the soup object, so `find_all` scans the whole document.
`row.find_all('th').index(section)` raises `ValueError` when no content-equal
`th` is in the row; `tds[-1]` raises `IndexError` on an empty list. -/
def extract_phone_number (d : Doc) : Except String String :=
  match findFirstIdx isPhoneTh d with
  | none => .ok "Not Found"
  | some sec =>
    match (nodeAt d sec).parent with
    | none => .error "AttributeError"
    | some par =>
      let scope := (nodeAt d par).parent
      let tds := scopeAll d scope (isTag "td")
      let ths := scopeAll d scope (isTag "th")
      match findFirstIdx (fun j => sameMarkup (nodeAt d j) (nodeAt d sec)) ths with
      | none => .error "ValueError"
      | some index =>
        if h : index < tds.length then .ok (stripAt d (tds.get ⟨index, h⟩))
        else
          match tds.getLast? with
          | some j => .ok (stripAt d j)
          | none => .error "IndexError"

/-- The tail of `extract_offering_amounts` (lines 186-187 of `main.py`): read
the text after the sold label (`AttributeError` when `find_next` yields no
`td`), then return the pair; a still-unset offering variable raises
`UnboundLocalError` at the `return`. -/
def soldPart (d : Doc) (sold : Nat) (offering : Option String) : Except String (String × String) :=
  match findNextIdx d sold (isTag "td") with
  | none => .error "AttributeError"
  | some soldAdj =>
    match offering with
    | some a => .ok (a, stripAt d soldAdj)
    | none => .error "UnboundLocalError"

/-- Embedding of `extract_offering_amounts` (lines 174-188 of `main.py`).
When both label cells exist: a blank cell after the offering label routes to
the checkbox branch, which sets `'Indefinite'` only when the next `FormData`
span's text is exactly `"X"` and otherwise leaves the offering variable unset;
a non-blank cell is taken verbatim; with either label missing both results are
`"Not Found"`. -/
def extract_offering_amounts (d : Doc) : Except String (String × String) :=
  match findFirstIdx (isTdWith "Total Offering Amount") d,
        findFirstIdx (isTdWith "Total Amount Sold") d with
  | some off, some sold =>
    (match findNextIdx d off (isTag "td") with
     | none => .error "AttributeError"
     | some adj =>
       if stripAt d adj == "" then
         match findNextSiblingIdx d off (isTag "td") with
         | none => .error "AttributeError"
         | some sib =>
           match findNextIdx d sib isFormDataSpan with
           | some cb =>
             if stripAt d cb == "X" then soldPart d sold (some "Indefinite")
             else soldPart d sold none
           | none => soldPart d sold none
       else soldPart d sold (some (stripAt d adj)))
  | _, _ => .ok ("Not Found", "Not Found")

/-- One parsed detail page, through the two views the extractors traverse:
its `<table>` elements and its pre-order element-node list. -/
structure DetailPage where
  tables : List RPTable
  doc : Doc

/-- The `newLink` built in `add_and_edit` (lines 129-132 of `main.py`) from a
record's `CIK` and `ADSH` fields: leading zeros stripped from the identifier,
hyphens stripped from the accession number, substituted into the fixed URL
template; `company["CIK"]` raises `KeyError` on a missing key. -/
def detailLinkOf (company : Rec) : Except String String :=
  match getOpt company "CIK" with
  | none => .error "KeyError: CIK"
  | some cikNum =>
    match getOpt company "ADSH" with
    | none => .error "KeyError: ADSH"
    | some adsh =>
      .ok ("https://www.sec.gov/Archives/edgar/data/" ++ lstripZeros cikNum
        ++ "/" ++ removeHyphens adsh ++ "/xslFormDX01/primary_doc.xml")

/-- The enrichment of one record from its fetched page (lines 138-141 of
`main.py`): set `Related Persons` (comma-joined), then `Phone Number`, then
the single combined field `Total Offering Amount / Amount Raised` holding
`f"{offered} / {raised}"`; an extractor exception aborts the whole loop. -/
def enrichWith (page : DetailPage) (company : Rec) : Except String Rec :=
  let company1 := setKey company "Related Persons"
    (String.intercalate ", " (extract_related_persons page.tables))
  match extract_phone_number page.doc with
  | .error e => .error e
  | .ok phone =>
    let company2 := setKey company1 "Phone Number" phone
    match extract_offering_amounts page.doc with
    | .error e => .error e
    | .ok amounts =>
      .ok (setKey company2 "Total Offering Amount / Amount Raised"
        (amounts.1 ++ " / " ++ amounts.2))

/-- The body of the `add_and_edit` loop for one record: build the detail link,
fetch that page through the detail transport, enrich. -/
def enrichOne (detail : String → DetailPage) (company : Rec) : Except String Rec :=
  match detailLinkOf company with
  | .error e => .error e
  | .ok newLink => enrichWith (detail newLink) company

/-- Embedding of `add_and_edit` (lines 127-141 of `main.py`): enrich each
record in order; an exception in any iteration propagates (no isolation
between records). -/
def add_and_edit (detail : String → DetailPage) : List Rec → Except String (List Rec)
  | [] => .ok []
  | company :: rest =>
    match enrichOne detail company with
    | .error e => .error e
    | .ok company2 =>
      match add_and_edit detail rest with
      | .error e => .error e
      | .ok rest2 => .ok (company2 :: rest2)

/-- The identifier removal of `clean_up` (lines 84-86 of `main.py`):
`result.pop('CIK', None)` then `result.pop('ADSH', None)`. -/
def dropIds (r : Rec) : Rec := popKey (popKey r "CIK") "ADSH"

/-- The final filter predicate of `clean_up` (line 89 of `main.py`):
`entry.get("Related Persons")` is truthy, i.e. the key is present with a
non-empty value. -/
def keepRelated (entry : Rec) : Bool :=
  match getOpt entry "Related Persons" with
  | some s => s != ""
  | none => false

/-- Embedding of `clean_up` (lines 53-92 of `main.py`): build the raw
records, enrich them all via `add_and_edit`, drop the `CIK` and `ADSH`
fields, keep only entries with a truthy `Related Persons` value. -/
def clean_up (detail : String → DetailPage) (response : SecJson) : Except String (List Rec) :=
  match add_and_edit detail (rawRecords response) with
  | .error e => .error e
  | .ok enriched => .ok ((enriched.map dropIds).filter keepRelated)

/-- The fixed search endpoint (line 8 of `main.py`). -/
def URL : String := "https://efts.sec.gov/LATEST/search-index"

/-- The query parameters of the search GET (line 44 of `main.py`). -/
def searchParams (start_date end_date : String) : List (String × String) :=
  [("dateRange", "custom"), ("startdt", start_date), ("enddt", end_date), ("forms", "D")]

/-- Embedding of `fetch_sec_filings` (lines 42-51 of `main.py`). The search
transport is the list of outcomes of successive GET attempts, consumed front
to back: `.error` is a `requests.RequestException` (a network error, or the
`HTTPError` that `raise_for_status` raises on an error status) with its
message, `.ok` a parsed 2xx JSON body. The result triple is the returned
value (`Except.error` embeds an uncaught exception escaping the call), the
messages shown through `st.error`, and the attempt outcomes left unconsumed. -/
def fetch_sec_filings (detail : String → DetailPage) (start_date end_date : String)
    (net : List (Except String SecJson)) :
    Except String (Option (List Rec)) × List String × List (Except String SecJson) :=
  let _params := searchParams start_date end_date
  match net with
  | [] => (.error "model: no attempt outcome provided", [], [])
  | outcome :: rest =>
    match outcome with
    | .error e => (.ok none, ["Request failed: " ++ e], rest)
    | .ok body =>
      match clean_up detail body with
      | .ok recs => (.ok (some recs), [], rest)
      | .error e => (.error e, [], rest)

/-- C1: for every hit whose `ciks` list is `["0001234567"]` and whose `adsh`
is `"0001234567-24-000001"`, the detail-page link the normalizer builds in
`add_and_edit` equals exactly
`https://www.sec.gov/Archives/edgar/data/1234567/000123456724000001/xslFormDX01/primary_doc.xml`
(leading zeros stripped from the identifier, hyphens stripped from the
accession number), and the hit's `Edgar` field wraps exactly that URL in its
anchor. -/
theorem c1_detail_link (source : Source)
    (hc : source.ciks = some ["0001234567"])
    (ha : source.adsh = some "0001234567-24-000001") :
    detailLinkOf (hitToRec (some source)) =
      .ok "https://www.sec.gov/Archives/edgar/data/1234567/000123456724000001/xslFormDX01/primary_doc.xml" ∧
    getOpt (hitToRec (some source)) "Edgar" =
      some ("<a href=\"https://www.sec.gov/Archives/edgar/data/1234567/000123456724000001/xslFormDX01/primary_doc.xml\" target=\"_blank\">Link</a>") := by
  obtain ⟨ciks, adsh, dn, fd, bl⟩ := source
  subst hc ha
  exact ⟨rfl, rfl⟩

/-- A concrete hit source with the identifiers of claim C1. -/
def srcC1 : Source :=
  ⟨some ["0001234567"], some "0001234567-24-000001", none, none, none⟩

/-- Witness for C1 at the concrete source `srcC1`. -/
theorem c1_witness :
    (srcC1.ciks = some ["0001234567"] ∧ srcC1.adsh = some "0001234567-24-000001") ∧
    (detailLinkOf (hitToRec (some srcC1)) =
      .ok "https://www.sec.gov/Archives/edgar/data/1234567/000123456724000001/xslFormDX01/primary_doc.xml" ∧
    getOpt (hitToRec (some srcC1)) "Edgar" =
      some ("<a href=\"https://www.sec.gov/Archives/edgar/data/1234567/000123456724000001/xslFormDX01/primary_doc.xml\" target=\"_blank\">Link</a>")) :=
  ⟨⟨rfl, rfl⟩, c1_detail_link srcC1 rfl rfl⟩

/-- C6: a search GET that fails (network error or error status surfaced by
`raise_for_status`) is caught: the call returns `None` (no results) without
raising, shows exactly one message carrying the underlying error text, and
leaves every later attempt outcome unconsumed — a single attempt, no retry. -/
theorem c6_single_attempt (detail : String → DetailPage) (start_date end_date e : String)
    (rest : List (Except String SecJson)) :
    fetch_sec_filings detail start_date end_date (.error e :: rest) =
      (.ok none, ["Request failed: " ++ e], rest) := rfl

/-- C7: for every hit lacking a usable `ciks`/`adsh` pair — the `ciks` key
absent, or the `adsh` value absent or empty — the generated `Edgar` field of
the record equals the literal string `"No links available"`. -/
theorem c7_no_links (item : Option Source)
    (h : (item.getD emptySource).ciks = none ∨ (item.getD emptySource).adsh = none ∨
      (item.getD emptySource).adsh = some "") :
    getOpt (hitToRec item) "Edgar" = some "No links available" := by
  have hE : getOpt (hitToRec item) "Edgar" = some (edgarLinksOf (item.getD emptySource)) := rfl
  rw [hE]
  rcases hg : item.getD emptySource with ⟨ciks, adsh, dn, fd, bl⟩
  rw [hg] at h
  rcases h with h | h | h
  · have h2 : ciks = none := h
    subst h2; rfl
  · have h2 : adsh = none := h
    subst h2; cases ciks <;> rfl
  · have h2 : adsh = some "" := h
    subst h2; cases ciks <;> rfl

/-- A search over a list finds nothing when no element matches. -/
theorem findFirstIdx_eq_none {α : Type} (p : α → Bool) (l : List α)
    (h : ∀ a ∈ l, p a = false) : findFirstIdx p l = none := by
  induction l with
  | nil => rfl
  | cons a t ih =>
    have ha := h a (List.mem_cons_self a t)
    simp [findFirstIdx, ha, ih (fun b hb => h b (List.mem_cons_of_mem a hb))]

/-- C8: on every detail page with no header cell whose text is exactly
`"Phone Number of Issuer"`, the phone-number extraction returns the literal
string `"Not Found"`. -/
theorem c8_phone_not_found (d : Doc)
    (h : ∀ n ∈ d, ¬(n.tag = "th" ∧ n.text = "Phone Number of Issuer")) :
    extract_phone_number d = .ok "Not Found" := by
  have hfind : findFirstIdx isPhoneTh d = none := by
    apply findFirstIdx_eq_none
    intro n hn
    have hn2 := h n hn
    by_cases h1 : n.tag = "th"
    · by_cases h2 : n.text = "Phone Number of Issuer"
      · exact absurd ⟨h1, h2⟩ hn2
      · simp [isPhoneTh, h1, h2]
    · simp [isPhoneTh, h1]
  simp [extract_phone_number, hfind]

/-- A concrete page for C8: a `td` (not a `th`) carries the phone label, so
the `th` search fails. -/
def docC8 : Doc := [⟨"td", [], none, "Phone Number of Issuer"⟩]

/-- Witness for C8 at the concrete page `docC8`. -/
theorem c8_witness :
    (∀ n ∈ docC8, ¬(n.tag = "th" ∧ n.text = "Phone Number of Issuer")) ∧
    extract_phone_number docC8 = .ok "Not Found" :=
  ⟨by decide, c8_phone_not_found docC8 (by decide)⟩

/-- C9: on every detail page where the cell with text exactly
`"Total Offering Amount"` or the cell with text exactly `"Total Amount Sold"`
is missing, both extracted amounts equal `"Not Found"`. -/
theorem c9_amounts_not_found (d : Doc)
    (h : findFirstIdx (isTdWith "Total Offering Amount") d = none ∨
      findFirstIdx (isTdWith "Total Amount Sold") d = none) :
    extract_offering_amounts d = .ok ("Not Found", "Not Found") := by
  rcases h with h | h
  · simp [extract_offering_amounts, h]
  · cases hoff : findFirstIdx (isTdWith "Total Offering Amount") d <;>
      simp [extract_offering_amounts, h, hoff]

/-- A concrete page for C9: the offering-amount label cell is present but
there is no sold-amount label cell. -/
def docC9 : Doc := [⟨"td", [], none, "Total Offering Amount"⟩, ⟨"td", [], none, "$5"⟩]

/-- Witness for C9 at the concrete page `docC9`: the offering label exists,
the sold label does not, and both amounts come back `"Not Found"`. -/
theorem c9_witness :
    (findFirstIdx (isTdWith "Total Offering Amount") docC9 = none ∨
      findFirstIdx (isTdWith "Total Amount Sold") docC9 = none) ∧
    findFirstIdx (isTdWith "Total Offering Amount") docC9 = some 0 ∧
    extract_offering_amounts docC9 = .ok ("Not Found", "Not Found") :=
  ⟨Or.inr rfl, rfl, c9_amounts_not_found docC9 (Or.inr rfl)⟩

/-- A concrete page for C10: a `Phone Number of Issuer` header inside a row
whose containing element has a header cell but no data cell at all. -/
def docC10 : Doc :=
  [⟨"table", [], none, ""⟩, ⟨"tr", [], some 0, ""⟩,
   ⟨"th", [], some 1, "Phone Number of Issuer"⟩]

/-- C10: on a detail page whose phone-number row has headers but zero data
cells, the fallback `tds[-1]` indexes an empty list and the extraction raises
`IndexError` instead of returning a fallback value: the header is found
(index 2), the scanned scope holds one header cell and no data cells, and the
result is the error, not `"Not Found"`. -/
theorem c10_phone_empty_tds :
    extract_phone_number docC10 = .error "IndexError" ∧
    findFirstIdx isPhoneTh docC10 = some 2 ∧
    scopeAll docC10 (some 0) (isTag "th") = [2] ∧
    scopeAll docC10 (some 0) (isTag "td") = [] :=
  ⟨rfl, rfl, rfl, rfl⟩

/-- C4: on every detail page whose `"Related Persons"` table filter yields
exactly one table holding a header row and three data rows (each of the first
two with at least one data cell), the extraction returns exactly the names of
the first two data rows — the header row is skipped, the third data row is
ignored — each name joining the row's cell texts in reverse column order. -/
theorem c4_two_rows (tables : List RPTable) (hdr r1 r2 r3 : RPRow)
    (hone : tables.filter (fun t => t.summary == "Related Persons") =
      [{ summary := "Related Persons", rows := [hdr, r1, r2, r3] }])
    (h1 : (r1.cells.filter (fun c => c.tag == "td")).isEmpty = false)
    (h2 : (r2.cells.filter (fun c => c.tag == "td")).isEmpty = false) :
    extract_related_persons tables = [rowNameOf r1, rowNameOf r2] := by
  simp [extract_related_persons, hone, h1, h2]
  simp at h1 h2
  obtain ⟨a1, ha1, ht1⟩ := h1
  obtain ⟨a2, ha2, ht2⟩ := h2
  rw [List.filterMap_cons, List.filterMap_cons, List.filterMap_nil]
  rw [if_neg (fun hall => (hall a1 ha1) ht1), if_neg (fun hall => (hall a2 ha2) ht2)]

/-- A concrete related-persons table for C4: one header row and three data
rows. -/
def tablesC4 : List RPTable :=
  [{ summary := "Related Persons",
     rows := [⟨[⟨"th", "Last Name"⟩, ⟨"th", "First Name"⟩]⟩,
              ⟨[⟨"td", "Doe"⟩, ⟨"td", "Jane"⟩]⟩,
              ⟨[⟨"td", "Roe"⟩, ⟨"td", "Rick"⟩]⟩,
              ⟨[⟨"td", "Poe"⟩, ⟨"td", "Edgar"⟩]⟩] }]

/-- Witness for C4 at the concrete page `tablesC4`: only `"Jane Doe"` and
`"Rick Roe"` come back; the third row (`"Edgar Poe"`) is ignored. -/
theorem c4_witness :
    (tablesC4.filter (fun t => t.summary == "Related Persons") = tablesC4) ∧
    extract_related_persons tablesC4 =
      [rowNameOf ⟨[⟨"td", "Doe"⟩, ⟨"td", "Jane"⟩]⟩, rowNameOf ⟨[⟨"td", "Roe"⟩, ⟨"td", "Rick"⟩]⟩] ∧
    extract_related_persons tablesC4 = ["Jane Doe", "Rick Roe"] :=
  ⟨rfl,
   c4_two_rows tablesC4 ⟨[⟨"th", "Last Name"⟩, ⟨"th", "First Name"⟩]⟩
     ⟨[⟨"td", "Doe"⟩, ⟨"td", "Jane"⟩]⟩ ⟨[⟨"td", "Roe"⟩, ⟨"td", "Rick"⟩]⟩
     ⟨[⟨"td", "Poe"⟩, ⟨"td", "Edgar"⟩]⟩ rfl rfl rfl,
   rfl⟩

/-- C5: on every detail page where both amount label cells exist and the cell
after the offering label is blank, the checkbox branch runs: when the next
`FormData` span's stripped text is exactly `"X"` the offering amount is the
literal `"Indefinite"`; when that span is absent or its text differs from
`"X"`, the offering variable stays unset and the extraction raises
`UnboundLocalError` instead of producing a defined offering amount. -/
theorem c5_indefinite_branch (d : Doc) (off sold adj sib soldAdj : Nat)
    (h1 : findFirstIdx (isTdWith "Total Offering Amount") d = some off)
    (h2 : findFirstIdx (isTdWith "Total Amount Sold") d = some sold)
    (h3 : findNextIdx d off (isTag "td") = some adj)
    (h4 : stripAt d adj = "")
    (h5 : findNextSiblingIdx d off (isTag "td") = some sib)
    (h6 : findNextIdx d sold (isTag "td") = some soldAdj) :
    (∀ cb, findNextIdx d sib isFormDataSpan = some cb →
      (stripAt d cb = "X" →
        extract_offering_amounts d = .ok ("Indefinite", stripAt d soldAdj)) ∧
      (stripAt d cb ≠ "X" →
        extract_offering_amounts d = .error "UnboundLocalError")) ∧
    (findNextIdx d sib isFormDataSpan = none →
      extract_offering_amounts d = .error "UnboundLocalError") := by
  refine ⟨fun cb hcb => ⟨fun hX => ?_, fun hX => ?_⟩, fun hnone => ?_⟩
  · simp [extract_offering_amounts, h1, h2, h3, h4, h5, h6, hcb, hX, soldPart]
  · simp [extract_offering_amounts, h1, h2, h3, h4, h5, h6, hcb, hX, soldPart]
  · simp [extract_offering_amounts, h1, h2, h3, h4, h5, h6, hnone, soldPart]

/-- A concrete page for C5: blank cell after the offering label, a `FormData`
span with text `"X"`, and a sold label with its amount. -/
def docC5x : Doc :=
  [⟨"td", [], none, "Total Offering Amount"⟩, ⟨"td", [], none, ""⟩,
   ⟨"span", [("class", "FormData")], none, "X"⟩,
   ⟨"td", [], none, "Total Amount Sold"⟩, ⟨"td", [], none, "$100"⟩]

/-- A concrete page for C5: as `docC5x` but with no `FormData` span at all. -/
def docC5n : Doc :=
  [⟨"td", [], none, "Total Offering Amount"⟩, ⟨"td", [], none, ""⟩,
   ⟨"td", [], none, "Total Amount Sold"⟩, ⟨"td", [], none, "$100"⟩]

/-- Witness for C5 at the concrete pages `docC5x` (marker text `"X"`, amount
reported `"Indefinite"`) and `docC5n` (marker absent, extraction raises). -/
theorem c5_witness :
    (stripAt docC5x 1 = "" ∧ stripAt docC5x 2 = "X" ∧
      extract_offering_amounts docC5x = .ok ("Indefinite", stripAt docC5x 4)) ∧
    (findNextIdx docC5n 1 isFormDataSpan = none ∧
      extract_offering_amounts docC5n = .error "UnboundLocalError") :=
  ⟨⟨rfl, rfl,
    ((c5_indefinite_branch docC5x 0 3 1 1 4 rfl rfl rfl rfl rfl rfl).1 2 rfl).1 rfl⟩,
   ⟨rfl, (c5_indefinite_branch docC5n 0 2 1 1 3 rfl rfl rfl rfl rfl rfl).2 rfl⟩⟩

/-- C2: whenever enrichment succeeds, the final record list of `clean_up` is
exactly the identifier-stripped enriched list filtered to entries with a
truthy `Related Persons` value; that filtered list is a sublist of the
enriched list (stable filter, no reordering) and filtering it again changes
nothing (idempotence). -/
theorem c2_filter_law (detail : String → DetailPage) (response : SecJson) (mid : List Rec)
    (h : add_and_edit detail (rawRecords response) = .ok mid) :
    clean_up detail response = .ok ((mid.map dropIds).filter keepRelated) ∧
    ((mid.map dropIds).filter keepRelated).Sublist (mid.map dropIds) ∧
    ((mid.map dropIds).filter keepRelated).filter keepRelated =
      (mid.map dropIds).filter keepRelated := by
  refine ⟨by simp [clean_up, h], List.filter_sublist _, ?_⟩
  induction mid.map dropIds with
  | nil => rfl
  | cons a t ih => cases ha : keepRelated a <;> simp [List.filter_cons, ha, ih]

/-- A concrete detail page used by the pipeline witnesses: one related-persons
table with a header row and one data row, and an otherwise empty document, so
the phone number and the amounts fall back to their `"Not Found"` defaults. -/
def pageW : DetailPage :=
  { tables := [{ summary := "Related Persons",
                 rows := [⟨[⟨"th", "Last Name"⟩, ⟨"th", "First Name"⟩]⟩,
                          ⟨[⟨"td", "Smith"⟩, ⟨"td", "John"⟩]⟩] }],
    doc := [] }

/-- A concrete detail transport returning `pageW` for every URL. -/
def detailW : String → DetailPage := fun _ => pageW

/-- A concrete hit source for the pipeline witnesses. -/
def srcW : Source := ⟨some ["123"], some "1-2", none, none, none⟩

/-- A concrete search response holding the single hit `srcW`. -/
def respW : SecJson := ⟨some (some [some srcW])⟩

/-- The enriched record list `add_and_edit` produces from `respW` through
`detailW`, written out in full. -/
def midW : List Rec :=
  [[("CIK", "123"), ("Company Name", ""), ("File Date", "Unknown"),
    ("Business Location(s)", ""), ("ADSH", "12"),
    ("Edgar", "<a href=\"https://www.sec.gov/Archives/edgar/data/123/12/xslFormDX01/primary_doc.xml\" target=\"_blank\">Link</a>"),
    ("Related Persons", "John Smith"), ("Phone Number", "Not Found"),
    ("Total Offering Amount / Amount Raised", "Not Found / Not Found")]]

/-- Witness for C2 at the concrete pipeline run on `respW` and `detailW`. -/
theorem c2_witness :
    (add_and_edit detailW (rawRecords respW) = .ok midW) ∧
    (clean_up detailW respW = .ok ((midW.map dropIds).filter keepRelated) ∧
     ((midW.map dropIds).filter keepRelated).Sublist (midW.map dropIds) ∧
     ((midW.map dropIds).filter keepRelated).filter keepRelated =
       (midW.map dropIds).filter keepRelated) :=
  ⟨rfl, c2_filter_law detailW respW midW rfl⟩

/-- The exact key list of every record `clean_up` returns: six display fields
plus the single combined amounts field. -/
def finalKeys : List String :=
  ["Company Name", "File Date", "Business Location(s)", "Edgar",
   "Related Persons", "Phone Number", "Total Offering Amount / Amount Raised"]

/-- Enriching a freshly built hit record adds exactly the three enrichment
keys, so that after dropping the identifiers the key list is `finalKeys`. -/
theorem enrichWith_keys (page : DetailPage) (item : Option Source) (r : Rec)
    (h : enrichWith page (hitToRec item) = .ok r) :
    (dropIds r).map Prod.fst = finalKeys := by
  cases hp : extract_phone_number page.doc with
  | error e => simp [enrichWith, hp] at h
  | ok p =>
    cases ha : extract_offering_amounts page.doc with
    | error e => simp [enrichWith, hp, ha] at h
    | ok ab =>
      simp [enrichWith, hp, ha] at h
      subst h
      rfl

/-- The loop body of `add_and_edit` preserves the final key shape. -/
theorem enrichOne_keys (detail : String → DetailPage) (item : Option Source) (r : Rec)
    (h : enrichOne detail (hitToRec item) = .ok r) :
    (dropIds r).map Prod.fst = finalKeys := by
  cases hL : detailLinkOf (hitToRec item) with
  | error e => simp [enrichOne, hL] at h
  | ok link =>
    simp [enrichOne, hL] at h
    exact enrichWith_keys (detail link) item r h

/-- Every record a successful `add_and_edit` returns on freshly built hit
records has the final key shape after identifier removal. -/
theorem add_and_edit_keys (detail : String → DetailPage) :
    ∀ (items : List (Option Source)) (mid : List Rec),
      add_and_edit detail (items.map hitToRec) = .ok mid →
      ∀ r ∈ mid, (dropIds r).map Prod.fst = finalKeys := by
  intro items
  induction items with
  | nil =>
    intro mid h r hr
    simp [add_and_edit] at h
    subst h
    simp at hr
  | cons item rest ih =>
    intro mid h r hr
    rw [List.map_cons] at h
    cases he : enrichOne detail (hitToRec item) with
    | error e => simp [add_and_edit, he] at h
    | ok c2 =>
      cases hrest : add_and_edit detail (rest.map hitToRec) with
      | error e => simp [add_and_edit, he, hrest] at h
      | ok tail =>
        simp [add_and_edit, he, hrest] at h
        subst h
        rcases List.mem_cons.mp hr with hr | hr
        · subst hr; exact enrichOne_keys detail item _ he
        · exact ih tail hrest r hr

/-- The raw record list is always a map of `hitToRec` over some item list. -/
theorem rawRecords_shape (response : SecJson) :
    ∃ items : List (Option Source), rawRecords response = items.map hitToRec := by
  cases hresp : response.hits with
  | none => exact ⟨[], by simp [rawRecords, hresp]⟩
  | some inner =>
    cases inner with
    | none => exact ⟨[], by simp [rawRecords, hresp]⟩
    | some items => exact ⟨items, by simp [rawRecords, hresp]⟩

/-- The record produced for `respW` after identifier removal, written out in
full: seven fields, the amounts combined in one field. -/
def recFinalW : Rec :=
  [("Company Name", ""), ("File Date", "Unknown"), ("Business Location(s)", ""),
   ("Edgar", "<a href=\"https://www.sec.gov/Archives/edgar/data/123/12/xslFormDX01/primary_doc.xml\" target=\"_blank\">Link</a>"),
   ("Related Persons", "John Smith"), ("Phone Number", "Not Found"),
   ("Total Offering Amount / Amount Raised", "Not Found / Not Found")]

/-- Counterexample to C3 as stated: at the concrete run on `respW`, the final
record has exactly the seven keys of `finalKeys` — there are no separate
`totalOfferingAmount` and `totalAmountSold` fields (which would make eight);
instead one combined field `"Total Offering Amount / Amount Raised"` holds
`"Not Found / Not Found"`. -/
theorem c3_counterexample :
    clean_up detailW respW = .ok [recFinalW] ∧
    recFinalW.map Prod.fst = finalKeys ∧
    finalKeys.length = 7 ∧
    getOpt recFinalW "Total Offering Amount / Amount Raised" = some "Not Found / Not Found" :=
  ⟨rfl, rfl, rfl, rfl⟩

/-- C3 (amended): every record in a successful `clean_up` output has exactly
the seven fields of `finalKeys` — company name, file date, business locations,
detail link, comma-joined related persons, phone number, and one combined
offering/sold string field — with the raw `CIK` and `ADSH` fields removed. -/
theorem c3_field_shape (detail : String → DetailPage) (response : SecJson) (out : List Rec)
    (h : clean_up detail response = .ok out) :
    ∀ r ∈ out, r.map Prod.fst = finalKeys := by
  intro r hr
  cases hmid : add_and_edit detail (rawRecords response) with
  | error e => simp [clean_up, hmid] at h
  | ok mid =>
    simp [clean_up, hmid] at h
    subst h
    have hr2 : r ∈ mid.map dropIds := List.mem_of_mem_filter hr
    obtain ⟨r0, hr0, rfl⟩ := List.mem_map.mp hr2
    obtain ⟨items, hitems⟩ := rawRecords_shape response
    rw [hitems] at hmid
    exact add_and_edit_keys detail items mid hmid r0 hr0

/-- Witness for the amended C3 at the concrete run on `respW`. -/
theorem c3_witness :
    clean_up detailW respW = .ok [recFinalW] ∧ recFinalW.map Prod.fst = finalKeys :=
  ⟨rfl, c3_field_shape detailW respW [recFinalW] rfl recFinalW (List.mem_singleton.mpr rfl)⟩

/-- A concrete hit item for C7: the `ciks` key is absent. -/
def itemC7 : Option Source := some ⟨none, some "0000-11-222", none, none, none⟩

/-- Witness for C7 at the concrete item `itemC7`. -/
theorem c7_witness :
    ((itemC7.getD emptySource).ciks = none ∨ (itemC7.getD emptySource).adsh = none ∨
      (itemC7.getD emptySource).adsh = some "") ∧
    getOpt (hitToRec itemC7) "Edgar" = some "No links available" :=
  ⟨Or.inl rfl, c7_no_links itemC7 (Or.inl rfl)⟩
